import Mathlib

/-!
Shallow embedding of `exif_watermark.py`.

Strings manipulated character-by-character by the Python code are embedded
as `List Char`; Python integers are `Int` (Python ints are unbounded, so no
modular wrap-around is needed); Python `//` on ints is floor division and
is embedded as `Int.fdiv`.  Filesystem paths are embedded as lists of path
components (`os.path.join base x` with a relative, slash-free `x` appends a
component; `os.path.basename` reads the last component; `os.path.dirname`
drops it).  I/O effects of PIL and `os` are embedded as explicit oracles
recording which calls succeed.
-/

namespace ExifWatermark

/-- An RGBA color, as the 4-tuples produced by `parse_color`. -/
abbrev Color := Int × Int × Int × Int

/-! ### Watermark placement (`add_watermark`, lines 106-129)

The placement branch of `add_watermark`: given the image extent
(`width`, `height` from `img.size`), the measured text extent and the
padding (the source fixes `padding = 10`; it is kept as a parameter here
since every branch uses it symbolically), the nine-way `if/elif` chain on
the position token picks the coordinate.  The final `else` duplicates the
`right-bottom` expression. -/
def computePosition (width height text_width text_height padding : Int)
    (position : String) : Int × Int :=
  if position = "left-top" then (padding, padding)
  else if position = "center-top" then ((width - text_width).fdiv 2, padding)
  else if position = "right-top" then (width - text_width - padding, padding)
  else if position = "left-center" then (padding, (height - text_height).fdiv 2)
  else if position = "center" then
    ((width - text_width).fdiv 2, (height - text_height).fdiv 2)
  else if position = "right-center" then
    (width - text_width - padding, (height - text_height).fdiv 2)
  else if position = "left-bottom" then (padding, height - text_height - padding)
  else if position = "center-bottom" then
    ((width - text_width).fdiv 2, height - text_height - padding)
  else if position = "right-bottom" then
    (width - text_width - padding, height - text_height - padding)
  else (width - text_width - padding, height - text_height - padding)

/-- The source's fixed margin, `padding = 10` (line 107). -/
def watermarkPadding : Int := 10

/-- The nine position tokens accepted by the `if/elif` chain (and by the
CLI's `choices` list). -/
def positionTokens : List String :=
  ["left-top", "center-top", "right-top",
   "left-center", "center", "right-center",
   "left-bottom", "center-bottom", "right-bottom"]

/-! ### Color parsing (`parse_color`, lines 192-235)

Python string primitives used by `parse_color`, embedded over `List Char`. -/

/-- The ASCII whitespace characters stripped by Python's `str.strip()`. -/
def isPySpace (c : Char) : Bool :=
  c = ' ' ∨ c = '\t' ∨ c = '\n' ∨ c = '\r' ∨ c = '\x0b' ∨ c = '\x0c'

/-- `str.strip()`: remove leading and trailing whitespace. -/
def pyStrip (s : List Char) : List Char :=
  ((s.dropWhile isPySpace).reverse.dropWhile isPySpace).reverse

/-- Value of a character as a digit (as CPython's digit table: `0-9`,
then letters of either case starting at 10); 99 for anything else, which
is out of range for every base Python accepts. -/
def digitVal (c : Char) : Nat :=
  if '0' ≤ c ∧ c ≤ '9' then c.toNat - '0'.toNat
  else if 'a' ≤ c ∧ c ≤ 'z' then c.toNat - 'a'.toNat + 10
  else if 'A' ≤ c ∧ c ≤ 'Z' then c.toNat - 'A'.toNat + 10
  else 99

/-- A character as a digit in the given base, if it is one. -/
def digitVal? (base : Nat) (c : Char) : Option Nat :=
  if digitVal c < base then some (digitVal c) else none

/-- Value of a nonempty all-digit string in the given base; `none`
(Python: `ValueError`) on an empty string or a non-digit. -/
def digitsVal? (base : Nat) (s : List Char) : Option Nat :=
  if s.isEmpty then none
  else
    s.foldl (fun acc c =>
      match acc, digitVal? base c with
      | some n, some v => some (base * n + v)
      | _, _ => none) (some 0)

/-- Python's `int(s, base)` for base 10 or 16: strips whitespace, accepts
an optional sign and (base 16) an optional `0x`/`0X` prefix, then requires
a nonempty run of digits of the base.  `none` models the `ValueError`
raised otherwise.  (CPython additionally allows single `_` separators
between digits; no caller of this program passes such strings and they are
not modelled.) -/
def pyIntBase? (base : Nat) (s0 : List Char) : Option Int :=
  let s1 := pyStrip s0
  let p : Int × List Char :=
    match s1 with
    | '+' :: t => (1, t)
    | '-' :: t => (-1, t)
    | _ => (1, s1)
  let s3 : List Char :=
    if base = 16 then
      match p.2 with
      | '0' :: 'x' :: t => t
      | '0' :: 'X' :: t => t
      | _ => p.2
    else p.2
  (digitsVal? base s3).map (fun n => p.1 * (n : Int))

/-- Python's `int(s)` (base 10). -/
def pyInt? (s : List Char) : Option Int := pyIntBase? 10 s

/-- `int(s[i:i+2], 16)`: the two-character slice of the stripped hex string
at offset `i`, parsed as hex (lines 199 and 202). -/
def hexSlice (s : List Char) (i : Nat) : Option Int :=
  pyIntBase? 16 ((s.drop i).take 2)

/-- Helper for `removeOcc`: scan the string left to right; a positive
`skip` count discards the remaining characters of an occurrence already
matched; at `skip = 0`, an occurrence of `pat` starting here is dropped
(its first character now, the other `pat.length - 1` via `skip`), any
other character is kept.  Structural in the string so that it reduces. -/
def removeOccAux (pat : List Char) : Nat → List Char → List Char
  | _, [] => []
  | k + 1, _ :: t => removeOccAux pat k t
  | 0, c :: t =>
    if pat ≠ [] ∧ pat.isPrefixOf (c :: t) then
      removeOccAux pat (pat.length - 1) t
    else c :: removeOccAux pat 0 t

/-- `str.replace(pat, '')` for a nonempty `pat`: remove every
(left-to-right, non-overlapping) occurrence of `pat`. -/
def removeOcc (pat s : List Char) : List Char := removeOccAux pat 0 s

/-- `str.split(sep)` for a one-character separator: Python keeps empty
parts and `''.split(sep) = ['']`. -/
def splitOnChar (sep : Char) (s : List Char) : List (List Char) :=
  s.foldr (fun c acc =>
    match acc with
    | [] => [[c]]
    | a :: rest => if c = sep then [] :: a :: rest else (c :: a) :: rest) [[]]

/-- `str.lower()` on the ASCII range (every key of `color_map` is ASCII). -/
def pyLowerChar (c : Char) : Char :=
  if 'A' ≤ c ∧ c ≤ 'Z' then Char.ofNat (c.toNat + 32) else c

/-- `str.lower()`. -/
def pyLower (s : List Char) : List Char := s.map pyLowerChar

/-- The fallback returned for anything unparseable: semi-transparent white
(line 235). -/
def defaultColor : Color := (255, 255, 255, 128)

/-- The named-color table (lines 215-226). -/
def color_map : List (List Char × Color) :=
  [("white".data, (255, 255, 255, 255)),
   ("black".data, (0, 0, 0, 255)),
   ("red".data, (255, 0, 0, 255)),
   ("green".data, (0, 255, 0, 255)),
   ("blue".data, (0, 0, 255, 255)),
   ("yellow".data, (255, 255, 0, 255)),
   ("cyan".data, (0, 255, 255, 255)),
   ("magenta".data, (255, 0, 255, 255)),
   ("gray".data, (128, 128, 128, 255)),
   ("transparent".data, (255, 255, 255, 128))]

/-- The named-color step (lines 228-229) followed by the default return
(line 235): look the lowercased string up in `color_map`. -/
def namedBranch (s : List Char) : Color :=
  match color_map.lookup (pyLower s) with
  | some c => c
  | none => defaultColor

/-- Line 207: `color_str.replace('rgba(', '').replace('rgb(', '')
.replace(')', '')`. -/
def rgbStripped (s : List Char) : List Char :=
  removeOcc ")".data (removeOcc "rgb(".data (removeOcc "rgba(".data s))

/-- Line 208: `[int(x.strip()) for x in color_str.split(',')]`; `none`
models the `ValueError` of a part that is not an int literal. -/
def rgbParts? (s : List Char) : Option (List Int) :=
  (splitOnChar ',' (rgbStripped s)).mapM (fun x => pyInt? (pyStrip x))

/-- The `rgb(`/`rgba(` step (lines 206-212): strip the markers with three
global `replace` calls, split on commas, parse each part as an int
(a `ValueError` jumps to the `except` and yields the default), and accept
exactly 3 or 4 parts; any other count falls through to the named-color
step with the mangled string. -/
def rgbBranch (s : List Char) : Color :=
  match rgbParts? s with
  | none => defaultColor
  | some [r, g, b] => (r, g, b, 255)
  | some [r, g, b, a] => (r, g, b, a)
  | some _ => namedBranch (rgbStripped s)

/-- The part of `parse_color` after the hex block (lines 205-235), applied
to the possibly-`#`-stripped string. -/
def nonHexForms (s : List Char) : Color :=
  if "rgb(".data.isPrefixOf s ∨ "rgba(".data.isPrefixOf s then rgbBranch s
  else namedBranch s

/-- `parse_color` (lines 192-235).  A string starting with `#` has every
leading `#` removed by `lstrip('#')`; a 6- or 8-character remainder is
parsed as hex pairs (a failed pair raises `ValueError`, caught by the
`except` which yields the default); any other remainder length falls
through to the remaining forms applied to the stripped string.  The
function is total: the Python `try/except` plus the final `return` make
`parse_color` return a 4-tuple on every input without raising. -/
def parse_color (s : List Char) : Color :=
  if s.take 1 = ['#'] then
    let t := s.dropWhile (fun c => c = '#')
    if t.length = 6 then
      match hexSlice t 0, hexSlice t 2, hexSlice t 4 with
      | some r, some g, some b => (r, g, b, 255)
      | _, _, _ => defaultColor
    else if t.length = 8 then
      match hexSlice t 0, hexSlice t 2, hexSlice t 4, hexSlice t 6 with
      | some r, some g, some b, some a => (r, g, b, a)
      | _, _, _, _ => defaultColor
    else nonHexForms t
  else nonHexForms s

/-! ### `add_watermark` control flow (lines 39-143)

The whole body sits in a `try/except Exception` that prints and
`return False`; success ends in `return True`.  The effectful PIL calls
are embedded as an oracle saying how each call behaves.  The inner
font-loading `try/except` (lines 50-83) catches everything and falls back
to the default font, so its outcome never decides the boolean result; it
is recorded in the oracle to embed that fact. -/

/-- How a `draw.text` call behaves: succeeds, raises `TypeError` (the only
exception the inner handler at line 134 catches), or raises anything
else. -/
inductive DrawOutcome
  | ok
  | typeError
  | otherError
deriving DecidableEq

/-- Oracle for the effectful calls of one `add_watermark` run:
`Image.open` (line 44), font loading (lines 50-83), the first `draw.text`
with the full fill (line 133), the retried `draw.text` with the
3-channel fill (line 136), and `img.save` (line 139). -/
structure RenderWorld where
  openOk : Bool
  fontLoadOk : Bool
  draw4 : DrawOutcome
  draw3 : DrawOutcome
  saveOk : Bool

/-- A recorded `draw.text` call, with the fill it was given. -/
inductive DrawCall
  | fill4 (c : Color)
  | fill3 (c : Int × Int × Int)
deriving DecidableEq

/-- `font_color[:3]` (line 136). -/
def firstThree (c : Color) : Int × Int × Int := (c.1, c.2.1, c.2.2.1)

/-- `add_watermark`'s result and the trace of `draw.text` calls it makes.
The first draw uses the full `font_color`; a `TypeError` there is caught
(line 134) and the draw is retried with `font_color[:3]` (line 136); any
other exception anywhere — a failed open, a non-`TypeError` draw failure,
a failure of the retry itself, or a failed save — propagates to the outer
handler (line 141) which returns `False`.  The embedding is a total
function, mirroring that no exception escapes `add_watermark`. -/
def add_watermark (w : RenderWorld) (font_color : Color) : Bool × List DrawCall :=
  if w.openOk then
    match w.draw4 with
    | .ok => (w.saveOk, [.fill4 font_color])
    | .typeError =>
      match w.draw3 with
      | .ok => (w.saveOk, [.fill4 font_color, .fill3 (firstThree font_color)])
      | _ => (false, [.fill4 font_color, .fill3 (firstThree font_color)])
    | .otherError => (false, [.fill4 font_color])
  else (false, [])

/-! ### `process_images` (lines 145-190) -/

/-- What `process_images` learns about one candidate file: the extension
`os.path.splitext` returns (with its dot, in original case), the result of
`get_exif_date` (`None` on failure), and whether `add_watermark` returned
`True` for it. -/
structure FileEntry where
  ext : List Char
  exifDate : Option (List Char)
  renderOk : Bool

/-- The three shapes of `input_path`: an existing file, an existing
directory with its regular-file entries, or neither (lines 147-158). -/
inductive InputPath
  | file (e : FileEntry)
  | dir (entries : List FileEntry)
  | missing

/-- The observable outcome of a `process_images` run: the Python return
value (a bare `return` and falling off the end both return `None`),
whether the output directory was ensured to exist (lines 160-163), and
the final `processed_count`. -/
structure ProcResult where
  ret : Option Nat
  outputDirEnsured : Bool
  processed : Nat
deriving DecidableEq

/-- The supported extensions (line 166). -/
def image_extensions : List (List Char) :=
  [".jpg".data, ".jpeg".data, ".png".data, ".gif".data, ".bmp".data, ".tiff".data]

/-- Python truthiness of `date_text` at line 177: `None` and the empty
string are falsy. -/
def pyTruthyStr : Option (List Char) → Bool
  | none => false
  | some s => s ≠ []

/-- The per-file loop (lines 169-188): skip unsupported extensions
(`continue`, line 173), skip files without a truthy EXIF date
(`continue`, line 179), and count the files whose `add_watermark`
returned `True`. -/
def processLoop : List FileEntry → Nat
  | [] => 0
  | e :: rest =>
    if pyLower e.ext ∈ image_extensions then
      if pyTruthyStr e.exifDate then
        (if e.renderOk then 1 else 0) + processLoop rest
      else processLoop rest
    else processLoop rest

/-- A file the loop counts: supported extension, truthy EXIF date, and a
successful render. -/
def countsAsProcessed (e : FileEntry) : Bool :=
  pyLower e.ext ∈ image_extensions ∧ pyTruthyStr e.exifDate ∧ e.renderOk

/-- `process_images` (lines 145-190).  A missing path prints an error and
does a bare `return` (line 158) before the output directory is created; a
single file is processed as the one-element list `[input_path]`; a
directory is processed entry by entry.  Every path of the function
returns `None`: the count is only printed (line 190). -/
def process_images (input : InputPath) : ProcResult :=
  match input with
  | .missing => { ret := none, outputDirEnsured := false, processed := 0 }
  | .file e =>
    { ret := none, outputDirEnsured := true, processed := processLoop [e] }
  | .dir entries =>
    { ret := none, outputDirEnsured := true, processed := processLoop entries }

/-! ### The output directory (lines 160-161)

Paths as lists of components: `os.path.join base x` for a relative,
slash-free `x` appends a component, `os.path.basename` is the last
component, `os.path.dirname` drops the last component. -/

/-- `output_dir = os.path.join(base_dir, os.path.basename(base_dir) +
"_watermark")` (line 161). -/
def output_dir (base_dir : List String) : List String :=
  base_dir ++ [base_dir.getLastD "" ++ "_watermark"]

/-- `os.path.dirname` on a component path. -/
def dirnameP (p : List String) : List String := p.dropLast

/-! ## Theorems -/

/-- Evaluation of the nine-way placement chain at each literal token. -/
theorem computePosition_eval (w h tw th p : Int) :
    computePosition w h tw th p "left-top" = (p, p) ∧
    computePosition w h tw th p "center-top" = ((w - tw).fdiv 2, p) ∧
    computePosition w h tw th p "right-top" = (w - tw - p, p) ∧
    computePosition w h tw th p "left-center" = (p, (h - th).fdiv 2) ∧
    computePosition w h tw th p "center" = ((w - tw).fdiv 2, (h - th).fdiv 2) ∧
    computePosition w h tw th p "right-center" = (w - tw - p, (h - th).fdiv 2) ∧
    computePosition w h tw th p "left-bottom" = (p, h - th - p) ∧
    computePosition w h tw th p "center-bottom" = ((w - tw).fdiv 2, h - th - p) ∧
    computePosition w h tw th p "right-bottom" = (w - tw - p, h - th - p) :=
  ⟨rfl, rfl, rfl, rfl, rfl, rfl, rfl, rfl, rfl⟩

/-- C1: For image extent 200×100, text extent 50×20 and the source's
padding 10, the placement branch yields for every one of the nine position
tokens exactly the coordinate of the per-axis rules (x = padding for left,
x = (width - text_width) // 2 for center, x = width - text_width - padding
for right, and symmetrically for y): in particular `center` yields
(75, 40), `right-bottom` yields (140, 70) and `left-top` yields
(10, 10). -/
theorem computePosition_matrix_200x100 :
    computePosition 200 100 50 20 watermarkPadding "left-top" = (10, 10) ∧
    computePosition 200 100 50 20 watermarkPadding "center-top" = (75, 10) ∧
    computePosition 200 100 50 20 watermarkPadding "right-top" = (140, 10) ∧
    computePosition 200 100 50 20 watermarkPadding "left-center" = (10, 40) ∧
    computePosition 200 100 50 20 watermarkPadding "center" = (75, 40) ∧
    computePosition 200 100 50 20 watermarkPadding "right-center" = (140, 40) ∧
    computePosition 200 100 50 20 watermarkPadding "left-bottom" = (10, 70) ∧
    computePosition 200 100 50 20 watermarkPadding "center-bottom" = (75, 70) ∧
    computePosition 200 100 50 20 watermarkPadding "right-bottom" = (140, 70) ∧
    (75 : Int) = ((200 : Int) - 50).fdiv 2 ∧
    (40 : Int) = ((100 : Int) - 20).fdiv 2 ∧
    (140 : Int) = 200 - 50 - watermarkPadding ∧
    (70 : Int) = 100 - 20 - watermarkPadding := by
  decide

/-- C3: For every pair of extents and every padding, a position token
outside the nine named tokens produces exactly the coordinate of
`right-bottom` (the trailing `else` duplicates the `right-bottom`
branch). -/
theorem computePosition_unknown_token (w h tw th p : Int) (pos : String)
    (hpos : pos ∉ positionTokens) :
    computePosition w h tw th p pos = computePosition w h tw th p "right-bottom" := by
  simp only [positionTokens, List.mem_cons, List.not_mem_nil, or_false, not_or] at hpos
  obtain ⟨h1, h2, h3, h4, h5, h6, h7, h8, h9⟩ := hpos
  rw [(computePosition_eval w h tw th p).2.2.2.2.2.2.2.2]
  simp [computePosition, h1, h2, h3, h4, h5, h6, h7, h8, h9]

/-- Witness for C3 at the concrete token `"diagonal"` and extents
200×100, text 50×20, padding 10. -/
theorem computePosition_unknown_token_witness :
    computePosition 200 100 50 20 10 "diagonal" =
      computePosition 200 100 50 20 10 "right-bottom" :=
  computePosition_unknown_token 200 100 50 20 10 "diagonal" (by decide)

/-- C6: placement never clamps: whenever the text extent exceeds the image
extent minus the relevant padding on an axis (minus 0 for the `center`
rule, which uses no padding), the computed coordinate on that axis is
negative. -/
theorem computePosition_no_clamping (w h tw th p : Int) :
    (w - p < tw →
      (computePosition w h tw th p "right-top").1 < 0 ∧
      (computePosition w h tw th p "right-center").1 < 0 ∧
      (computePosition w h tw th p "right-bottom").1 < 0) ∧
    (h - p < th →
      (computePosition w h tw th p "left-bottom").2 < 0 ∧
      (computePosition w h tw th p "center-bottom").2 < 0 ∧
      (computePosition w h tw th p "right-bottom").2 < 0) ∧
    (w < tw →
      (computePosition w h tw th p "center-top").1 < 0 ∧
      (computePosition w h tw th p "center").1 < 0 ∧
      (computePosition w h tw th p "center-bottom").1 < 0) ∧
    (h < th →
      (computePosition w h tw th p "left-center").2 < 0 ∧
      (computePosition w h tw th p "center").2 < 0 ∧
      (computePosition w h tw th p "right-center").2 < 0) := by
  obtain ⟨e1, e2, e3, e4, e5, e6, e7, e8, e9⟩ := computePosition_eval w h tw th p
  refine ⟨fun hx => ?_, fun hy => ?_, fun hcx => ?_, fun hcy => ?_⟩
  · rw [e3, e6, e9]
    exact ⟨(by omega : w - tw - p < 0), (by omega : w - tw - p < 0),
           (by omega : w - tw - p < 0)⟩
  · rw [e7, e8, e9]
    exact ⟨(by omega : h - th - p < 0), (by omega : h - th - p < 0),
           (by omega : h - th - p < 0)⟩
  · rw [e2, e5, e8]
    exact ⟨Int.fdiv_neg' (by omega) (by norm_num),
           Int.fdiv_neg' (by omega) (by norm_num),
           Int.fdiv_neg' (by omega) (by norm_num)⟩
  · rw [e4, e5, e6]
    exact ⟨Int.fdiv_neg' (by omega) (by norm_num),
           Int.fdiv_neg' (by omega) (by norm_num),
           Int.fdiv_neg' (by omega) (by norm_num)⟩

/-- Witness for C6 at a 5×6 image, 100×200 text, padding 10: all four
overflow hypotheses hold and the relevant coordinates are negative. -/
theorem computePosition_no_clamping_witness :
    (computePosition 5 6 100 200 10 "right-bottom").1 < 0 ∧
    (computePosition 5 6 100 200 10 "right-bottom").2 < 0 ∧
    (computePosition 5 6 100 200 10 "center").1 < 0 ∧
    (computePosition 5 6 100 200 10 "center").2 < 0 :=
  ⟨((computePosition_no_clamping 5 6 100 200 10).1 (by decide)).2.2,
   ((computePosition_no_clamping 5 6 100 200 10).2.1 (by decide)).2.2,
   ((computePosition_no_clamping 5 6 100 200 10).2.2.1 (by decide)).2.1,
   ((computePosition_no_clamping 5 6 100 200 10).2.2.2 (by decide)).2.1⟩

/-- C2: `parse_color` maps `#FF0000` to (255,0,0,255), `#00FF0080` to
(0,255,0,128), `rgb(10,20,30)` to (10,20,30,255), `rgba(1,2,3,4)` to
(1,2,3,4), `white` to (255,255,255,255), `transparent` to (255,255,255,128),
and any string matching none of the three forms — not hex-marked, not
`rgb(`/`rgba(`-marked, not a named color (e.g. `not-a-color`) — to the
default (255,255,255,128).  The embedding is a total function into
4-tuples, mirroring that `parse_color` returns a 4-tuple on every input
and never raises. -/
theorem parse_color_spec :
    parse_color "#FF0000".data = (255, 0, 0, 255) ∧
    parse_color "#00FF0080".data = (0, 255, 0, 128) ∧
    parse_color "rgb(10,20,30)".data = (10, 20, 30, 255) ∧
    parse_color "rgba(1,2,3,4)".data = (1, 2, 3, 4) ∧
    parse_color "white".data = (255, 255, 255, 255) ∧
    parse_color "transparent".data = (255, 255, 255, 128) ∧
    parse_color "not-a-color".data = defaultColor ∧
    ∀ s : List Char, s.take 1 ≠ ['#'] →
      "rgb(".data.isPrefixOf s = false →
      "rgba(".data.isPrefixOf s = false →
      color_map.lookup (pyLower s) = none →
      parse_color s = defaultColor := by
  refine ⟨by decide, by decide, by decide, by decide, by decide, by decide, by decide, ?_⟩
  intro s h1 h2 h3 h4
  simp [parse_color, h1, nonHexForms, h2, h3, namedBranch, h4]

/-- Witness for C2's universally quantified part at the garbage string
`not-a-color`. -/
theorem parse_color_spec_witness :
    parse_color "not-a-color".data = defaultColor :=
  parse_color_spec.2.2.2.2.2.2.2 "not-a-color".data
    (by decide) (by decide) (by decide) (by decide)

/-- C4 fails on the code: `#white` is stripped to `white` (length 5, so
neither hex branch fires), falls through to the named-color table, and
resolves to opaque white rather than the default. -/
theorem parse_color_hash_counterexample :
    parse_color "#white".data = (255, 255, 255, 255) ∧
    parse_color "#white".data ≠ defaultColor := by
  decide

/-- C4 amended: a `#`-marked string whose remainder after stripping the
leading `#`s is not exactly 6 or 8 characters long is handed — stripped —
to the remaining forms (functional, then named): `#white` resolves to the
named color white and `#rgb(1,2,3)` to (1,2,3,255), and only a stripped
remainder matching no remaining form yields the default.  A remainder of
exactly 6 or 8 characters that fails hex parsing yields the default
without attempting the remaining forms. -/
theorem parse_color_hash_fallthrough :
    (∀ s : List Char, s.take 1 = ['#'] →
      (s.dropWhile (fun c => c = '#')).length ≠ 6 →
      (s.dropWhile (fun c => c = '#')).length ≠ 8 →
      parse_color s = nonHexForms (s.dropWhile (fun c => c = '#'))) ∧
    parse_color "#white".data = (255, 255, 255, 255) ∧
    parse_color "#rgb(1,2,3)".data = (1, 2, 3, 255) ∧
    parse_color "#zzz".data = defaultColor ∧
    parse_color "#GGGGGG".data = defaultColor := by
  refine ⟨?_, by decide, by decide, by decide, by decide⟩
  intro s h0 h6 h8
  simp [parse_color, h0, h6, h8]

/-- Witness for C4's amended fall-through rule at `#white`. -/
theorem parse_color_hash_fallthrough_witness :
    parse_color "#white".data =
      nonHexForms ("#white".data.dropWhile (fun c => c = '#')) :=
  parse_color_hash_fallthrough.1 "#white".data (by decide) (by decide) (by decide)

/-- C7: the functional forms clamp nothing: whenever the marker-stripped
comma-split parts parse as the integers `[r, g, b]` (resp.
`[r, g, b, a]`), the channels come through unchanged, whatever their
range; in particular `rgb(300,0,0)` yields (300,0,0,255) and
`rgba(-5,300,0,999)` yields (-5,300,0,999). -/
theorem parse_color_rgb_no_clamping :
    (∀ (s : List Char) (r g b : Int),
      "rgb(".data.isPrefixOf s = true →
      rgbParts? s = some [r, g, b] →
      parse_color s = (r, g, b, 255)) ∧
    (∀ (s : List Char) (r g b a : Int),
      "rgba(".data.isPrefixOf s = true →
      rgbParts? s = some [r, g, b, a] →
      parse_color s = (r, g, b, a)) ∧
    parse_color "rgb(300,0,0)".data = (300, 0, 0, 255) ∧
    parse_color "rgba(-5,300,0,999)".data = (-5, 300, 0, 999) := by
  refine ⟨?_, ?_, by decide, by decide⟩
  · intro s r g b hpre hparse
    obtain ⟨t, rfl⟩ : ∃ t, s = 'r' :: 'g' :: 'b' :: '(' :: t := by
      obtain ⟨t, ht⟩ := List.isPrefixOf_iff_prefix.mp hpre
      exact ⟨t, ht.symm⟩
    simp [parse_color, nonHexForms, rgbBranch, hpre, hparse]
  · intro s r g b a hpre hparse
    obtain ⟨t, rfl⟩ : ∃ t, s = 'r' :: 'g' :: 'b' :: 'a' :: '(' :: t := by
      obtain ⟨t, ht⟩ := List.isPrefixOf_iff_prefix.mp hpre
      exact ⟨t, ht.symm⟩
    simp [parse_color, nonHexForms, rgbBranch, hpre, hparse]

/-- Witness for C7 at `rgb(300,0,0)` through the universally quantified
rule. -/
theorem parse_color_rgb_no_clamping_witness :
    parse_color "rgb(300,0,0)".data = (300, 0, 0, 255) :=
  parse_color_rgb_no_clamping.1 "rgb(300,0,0)".data 300 0 0 (by decide) (by decide)

/-- `lstrip('#')` ignores how many leading `#`s there are: dropping the
`#`-run of a string of the form `"#" * n ++ rest` gives the same remainder
as for `"#" ++ rest`. -/
theorem dropWhile_hash_replicate (n : Nat) (l : List Char) :
    (List.replicate n '#' ++ l).dropWhile (fun c => c = '#') =
      l.dropWhile (fun c => c = '#') := by
  induction n with
  | zero => simp
  | succ k ih => simp [List.replicate_succ, List.dropWhile_cons, ih]

/-- C10: `parse_color` strips every leading `#`, not just one marker: a
string with `n ≥ 1` leading `#`s parses exactly as the single-`#` form of
the same remainder, so `##FF0000` yields (255,0,0,255) and `###00FF0080`
yields (0,255,0,128). -/
theorem parse_color_multi_hash :
    (∀ (n : Nat) (rest : List Char), 1 ≤ n →
      parse_color (List.replicate n '#' ++ rest) = parse_color ('#' :: rest)) ∧
    parse_color "##FF0000".data = (255, 0, 0, 255) ∧
    parse_color "###00FF0080".data = (0, 255, 0, 128) := by
  refine ⟨?_, by decide, by decide⟩
  intro n rest hn
  obtain ⟨m, rfl⟩ : ∃ m, n = m + 1 := ⟨n - 1, by omega⟩
  have h1 : (List.replicate (m + 1) '#' ++ rest).take 1 = ['#'] := by
    simp [List.replicate_succ]
  have h2 : ('#' :: rest).take 1 = ['#'] := by simp
  have h3 : ('#' :: rest).dropWhile (fun c => c = '#') =
      rest.dropWhile (fun c => c = '#') := by
    simp [List.dropWhile_cons]
  simp only [parse_color, h1, h2, if_pos, dropWhile_hash_replicate, h3]

/-- Witness for C10 at `##FF0000` (two leading `#`s). -/
theorem parse_color_multi_hash_witness :
    parse_color (List.replicate 2 '#' ++ "FF0000".data) =
      parse_color ('#' :: "FF0000".data) :=
  parse_color_multi_hash.1 2 "FF0000".data (by decide)

/-- C8: `add_watermark` signals by boolean only.  It returns `True`
exactly when the image opens, the save succeeds, and the draw either
accepts the 4-channel fill or raises `TypeError` and then accepts the
3-channel retry; every failure — unreadable image, rejected color,
failed retry, unwritable output — yields `False` (the embedding being a
total function mirrors that no exception escapes).  Whenever the first
draw raises `TypeError`, the draw is retried with exactly the first three
channels of the color before failure can be declared.  The font-loading
outcome never affects the result. -/
theorem add_watermark_boundary (w : RenderWorld) (c : Color) :
    ((add_watermark w c).1 = true ↔
      (w.openOk = true ∧ w.saveOk = true ∧
        (w.draw4 = .ok ∨ (w.draw4 = .typeError ∧ w.draw3 = .ok)))) ∧
    (w.openOk = true → w.draw4 = .typeError →
      (add_watermark w c).2 = [.fill4 c, .fill3 (firstThree c)]) ∧
    (∀ f : Bool, add_watermark { w with fontLoadOk := f } c = add_watermark w c) := by
  obtain ⟨o, f, d4, d3, sv⟩ := w
  cases o <;> cases d4 <;> cases d3 <;> cases sv <;>
    simp [add_watermark]

/-- Witness for C8 at a world whose first draw raises `TypeError` and
whose retry succeeds: the run succeeds and the retry used the first three
channels. -/
theorem add_watermark_boundary_witness :
    (add_watermark ⟨true, true, .typeError, .ok, true⟩ (9, 8, 7, 6)).2 =
      [.fill4 (9, 8, 7, 6), .fill3 (9, 8, 7)] :=
  (add_watermark_boundary ⟨true, true, .typeError, .ok, true⟩ (9, 8, 7, 6)).2.1 rfl rfl

/-- The per-file loop counts exactly the files with a supported extension,
a truthy EXIF date, and a successful render. -/
theorem processLoop_eq_filter (es : List FileEntry) :
    processLoop es = (es.filter countsAsProcessed).length := by
  induction es with
  | nil => rfl
  | cons e rest ih =>
    by_cases hm : pyLower e.ext ∈ image_extensions
    · by_cases ht : pyTruthyStr e.exifDate = true
      · cases hr : e.renderOk <;>
          simp [processLoop, countsAsProcessed, List.filter, hm, ht, hr, ih,
            Nat.add_comm]
      · simp [processLoop, countsAsProcessed, List.filter, hm, ht, ih]
    · simp [processLoop, countsAsProcessed, List.filter, hm, ih]

/-- A directory entry that passes every check of the loop. -/
def goodEntry : FileEntry :=
  { ext := ".jpg".data, exifDate := some "2024-01-01".data, renderOk := true }

/-- C9 fails on the code: `process_images` never returns the count — every
path returns `None` (the early bare `return` at line 158 and falling off
the end at line 190), the count is only printed.  On a directory holding
one processable file the count is 1 yet the return value is `None`, not
`Some 1`. -/
theorem process_images_ret_counterexample :
    (process_images (.dir [goodEntry])).processed = 1 ∧
    (process_images (.dir [goodEntry])).ret = none ∧
    (process_images (.dir [goodEntry])).ret ≠
      some (process_images (.dir [goodEntry])).processed := by
  decide

/-- C9 amended: `process_images` returns `None` on every input (the final
count is printed, not returned); an input path that is neither a file nor
a directory is reported and the function returns early with zero files
processed and no output directory created; for valid inputs the final
`processed_count` equals the number of files with a supported extension, a
truthy EXIF date, and a successful `add_watermark`. -/
theorem process_images_behavior :
    (∀ input : InputPath, (process_images input).ret = none) ∧
    ((process_images .missing).processed = 0 ∧
      (process_images .missing).outputDirEnsured = false) ∧
    (∀ entries : List FileEntry,
      (process_images (.dir entries)).processed =
        (entries.filter countsAsProcessed).length) ∧
    (∀ e : FileEntry,
      (process_images (.file e)).processed =
        ([e].filter countsAsProcessed).length) := by
  refine ⟨?_, ⟨rfl, rfl⟩, ?_, ?_⟩
  · intro input
    cases input <;> rfl
  · intro entries
    simpa [process_images] using processLoop_eq_filter entries
  · intro e
    simpa [process_images] using processLoop_eq_filter [e]

/-- C5 fails on the code: `os.path.join(base_dir,
os.path.basename(base_dir) + "_watermark")` places the output directory
inside `base_dir`, not next to it.  For `base_dir = photos/vacation` the
output directory is `photos/vacation/vacation_watermark`, whose parent is
the input directory itself rather than the input's parent — so it is not
a sibling. -/
theorem output_dir_counterexample :
    output_dir ["photos", "vacation"] =
      ["photos", "vacation", "vacation_watermark"] ∧
    dirnameP (output_dir ["photos", "vacation"]) = ["photos", "vacation"] ∧
    dirnameP (output_dir ["photos", "vacation"]) ≠ dirnameP ["photos", "vacation"] := by
  decide

/-- C5 amended: the output directory, named
`<basename(base_dir)>_watermark`, is created inside `base_dir`: its
parent is `base_dir` itself, and (for any nonempty `base_dir`) that parent
differs from `base_dir`'s own parent, so it is a child and not a
sibling. -/
theorem output_dir_inside_base (b : List String) (hb : b ≠ []) :
    dirnameP (output_dir b) = b ∧
    (output_dir b).getLastD "" = b.getLastD "" ++ "_watermark" ∧
    dirnameP (output_dir b) ≠ dirnameP b := by
  refine ⟨List.dropLast_concat, List.getLastD_concat _ _ _, ?_⟩
  rw [show dirnameP (output_dir b) = b from List.dropLast_concat]
  intro e
  have hlt : (dirnameP b).length < b.length := by
    cases b with
    | nil => exact absurd rfl hb
    | cons a l => simp [dirnameP]
  rw [← e] at hlt
  exact lt_irrefl _ hlt

/-- Witness for C5's amended placement at `base_dir = photos/vacation`. -/
theorem output_dir_inside_base_witness :
    dirnameP (output_dir ["photos", "vacation"]) = ["photos", "vacation"] ∧
    (output_dir ["photos", "vacation"]).getLastD "" = "vacation" ++ "_watermark" ∧
    dirnameP (output_dir ["photos", "vacation"]) ≠ dirnameP ["photos", "vacation"] := by
  have h := output_dir_inside_base ["photos", "vacation"] (by decide)
  exact ⟨h.1, h.2.1, h.2.2⟩

end ExifWatermark
